import Mathlib

/-!
Shallow embedding of `nesv/cassandrastore` (`store.go`): a Cassandra-backed
session store for gorilla/sessions.  Pure parts of the Go code are translated
to Lean functions; the external collaborators (the gocql connection, the CQL
query outcome, securecookie encode/decode, and the entropy source) are passed
in as explicit oracle parameters, so every definition is executable.
Side effects (setting a response cookie, executing a CQL write) are recorded
in an explicit effect trace.
-/

namespace Cassandrastore

/-! ### Session codec

Modelled from the spec: the Session Codec is realised in `store.go` by Go's
`encoding/gob` (stdlib, not part of this repository's sources; only its call
sites at `save`/`load` are).  Per the spec it serializes the session's
key-value payload to bytes with round-trip fidelity, and decode is
all-or-nothing.  We model the payload as a list of string pairs and the codec
as a length-prefixed serialization into a byte (`Nat`) sequence. -/

/-- Payload mapping of a session: keys to values. -/
abbrev Payload := List (String × String)

/-- Serialize one string: its length followed by its character codes. -/
def encodeStr (s : String) : List Nat :=
  s.data.length :: s.data.map Char.toNat

/-- Parse one length-prefixed string, returning it and the remaining bytes. -/
def decodeStr : List Nat → Option (String × List Nat)
  | [] => none
  | n :: rest =>
    if n ≤ rest.length then
      some (String.mk ((rest.take n).map Char.ofNat), rest.drop n)
    else none

/-- Serialize one key-value entry. -/
def encodeEntry (p : String × String) : List Nat :=
  encodeStr p.1 ++ encodeStr p.2

/-- Parse exactly `n` key-value entries. -/
def decodeEntries : Nat → List Nat → Option (Payload × List Nat)
  | 0, l => some ([], l)
  | n + 1, l =>
    match decodeStr l with
    | none => none
    | some (k, l1) =>
      match decodeStr l1 with
      | none => none
      | some (v, l2) =>
        match decodeEntries n l2 with
        | none => none
        | some (ps, l3) => some ((k, v) :: ps, l3)

/-- Serialize a whole payload: entry count followed by the entries. -/
def encodePayload (m : Payload) : List Nat :=
  m.length :: (m.map encodeEntry).flatten

/-- Deserialize a whole payload; fails (`none`) unless the bytes parse
completely, so a failure never yields a partial payload. -/
def decodePayload (l : List Nat) : Option Payload :=
  match l with
  | [] => none
  | n :: rest =>
    match decodeEntries n rest with
    | some (ps, []) => some ps
    | _ => none

theorem decodeStr_encodeStr (s : String) (r : List Nat) :
    decodeStr (encodeStr s ++ r) = some (s, r) := by
  unfold encodeStr decodeStr
  simp only [List.cons_append]
  have hlen : s.data.length = (s.data.map Char.toNat).length := by simp
  rw [if_pos (by simp)]
  congr 1
  have htake : ((s.data.map Char.toNat ++ r).take s.data.length) = s.data.map Char.toNat := by
    rw [hlen, List.take_left]
  have hdrop : ((s.data.map Char.toNat ++ r).drop s.data.length) = r := by
    rw [hlen, List.drop_left]
  rw [htake, hdrop, List.map_map]
  have : (Char.ofNat ∘ Char.toNat) = id := by
    funext c
    exact Char.ofNat_toNat c
  rw [this, List.map_id]

theorem decodeEntries_encode (m : Payload) (r : List Nat) :
    decodeEntries m.length ((m.map encodeEntry).flatten ++ r) = some (m, r) := by
  induction m generalizing r with
  | nil => simp [decodeEntries]
  | cons p ps ih =>
    obtain ⟨k, v⟩ := p
    simp only [List.map_cons, List.flatten_cons, List.length_cons, encodeEntry,
      List.append_assoc, decodeEntries, decodeStr_encodeStr, ih]

theorem decodePayload_encodePayload (m : Payload) :
    decodePayload (encodePayload m) = some m := by
  have h := decodeEntries_encode m []
  rw [List.append_nil] at h
  simp [encodePayload, decodePayload, h]

/-! ### Identifier generation

`Save` generates a session id as
`strings.TrimRight(base32.StdEncoding.EncodeToString(k), "=")` where `k` is
`securecookie.GenerateRandomKey(32)`.  We model RFC 4648 standard base-32
encoding over byte lists, and the trailing-`=` trim. -/

/-- The RFC 4648 base-32 alphabet used by Go's `base32.StdEncoding`. -/
def base32Alphabet : List Char := "ABCDEFGHIJKLMNOPQRSTUVWXYZ234567".data

/-- The eight bits of a byte, most significant first. -/
def byteBits (b : Nat) : List Nat :=
  [b / 128 % 2, b / 64 % 2, b / 32 % 2, b / 16 % 2, b / 8 % 2, b / 4 % 2, b / 2 % 2, b % 2]

/-- Group a bit list into 5-bit groups, zero-padding the final group. -/
def chunk5 : List Nat → List (List Nat)
  | [] => []
  | a :: b :: c :: d :: e :: rest => [a, b, c, d, e] :: chunk5 rest
  | l => [l ++ List.replicate (5 - l.length) 0]

/-- Value of a bit list, most significant bit first. -/
def bitsToNat (bits : List Nat) : Nat :=
  bits.foldl (fun acc b => 2 * acc + b) 0

/-- The data characters of the base-32 encoding (no padding). -/
def base32Body (bytes : List Nat) : List Char :=
  (chunk5 (bytes.map byteBits).flatten).map (fun g => base32Alphabet.getD (bitsToNat g) 'A')

/-- Full `base32.StdEncoding.EncodeToString`: data characters padded with
`=` to a multiple of eight characters. -/
def base32Encode (bytes : List Nat) : List Char :=
  let body := base32Body bytes
  body ++ List.replicate ((8 - body.length % 8) % 8) '='

/-- Remove every trailing `=` character, as `strings.TrimRight(s, "=")`. -/
def trimRightPad (l : List Char) : List Char :=
  (l.reverse.dropWhile (fun c => c == '=')).reverse

/-- The generated session identifier, from the 32 random bytes produced by
`securecookie.GenerateRandomKey(32)`. -/
def generateID (key : List Nat) : String :=
  String.mk (trimRightPad (base32Encode key))

theorem alphabet_no_pad : ∀ c ∈ base32Alphabet, c ≠ '=' := by decide

theorem alphabet_getD_ne_pad (n : Nat) : base32Alphabet.getD n 'A' ≠ '=' := by
  by_cases h : n < base32Alphabet.length
  · refine alphabet_no_pad _ ?_
    rw [List.getD_eq_getElem _ _ h]
    exact List.getElem_mem h
  · rw [List.getD_eq_default _ _ (Nat.le_of_not_lt h)]
    decide

theorem dropWhile_replicate_pad (k : Nat) (t : List Char) :
    List.dropWhile (fun c => c == '=') (List.replicate k '=' ++ t) =
      List.dropWhile (fun c => c == '=') t := by
  induction k with
  | zero => simp
  | succ n ih => simp [List.replicate_succ, List.dropWhile_cons, ih]

theorem trimRightPad_append_pad (body : List Char) (k : Nat)
    (h : ∀ c ∈ body, c ≠ '=') :
    trimRightPad (body ++ List.replicate k '=') = body := by
  unfold trimRightPad
  rw [List.reverse_append, List.reverse_replicate, dropWhile_replicate_pad]
  cases hb : body.reverse with
  | nil => simpa using congrArg List.reverse hb
  | cons a t =>
    have ha : a ∈ body := by
      rw [← List.mem_reverse, hb]
      exact List.mem_cons_self a t
    rw [List.dropWhile_cons, if_neg (by simp [h a ha])]
    rw [← hb, List.reverse_reverse]

theorem chunk5_ne_nil (l : List Nat) (h : l ≠ []) : chunk5 l ≠ [] := by
  rcases l with _ | ⟨a, _ | ⟨b, _ | ⟨c, _ | ⟨d, _ | ⟨e, rest⟩⟩⟩⟩⟩
  · exact absurd rfl h
  all_goals simp [chunk5]

theorem base32Body_mem_alphabet (bytes : List Nat) :
    ∀ c ∈ base32Body bytes, c ≠ '=' := by
  intro c hc
  unfold base32Body at hc
  obtain ⟨g, _, hg⟩ := List.mem_map.mp hc
  rw [← hg]
  exact alphabet_getD_ne_pad (bitsToNat g)

theorem generateID_eq_body (key : List Nat) :
    generateID key = String.mk (base32Body key) := by
  unfold generateID base32Encode
  rw [trimRightPad_append_pad _ _ (base32Body_mem_alphabet key)]

theorem generateID_ne_empty (key : List Nat) (h : key ≠ []) :
    generateID key ≠ "" := by
  rw [generateID_eq_body]
  intro hcontra
  have hbody : base32Body key = [] := by
    have := congrArg String.data hcontra
    simpa using this
  have hbits : (key.map byteBits).flatten ≠ [] := by
    rcases key with _ | ⟨b, bs⟩
    · exact absurd rfl h
    · simp [byteBits]
  have := chunk5_ne_nil _ hbits
  unfold base32Body at hbody
  exact this (List.map_eq_nil_iff.mp hbody)

/-! ### Data model -/

/-- Cookie/session options (`gorilla/sessions.Options`): only the fields set
by this store.  `maxAge` is in seconds; negative means immediate expiry. -/
structure Options where
  path : String
  maxAge : Int
deriving DecidableEq, Repr

/-- A `gorilla/sessions.Session` as used by this store: identifier, payload,
per-session options (held by value: `New` copies the store's options struct),
and the `IsNew` flag. -/
structure Session where
  id : String
  name : String
  values : Payload
  options : Options
  isNew : Bool
deriving DecidableEq, Repr

/-- The store: its default options and its table name.  The gocql cluster
configuration and the securecookie codecs are external capabilities and are
modelled as oracle parameters of the operations instead. -/
structure CassandraStore where
  options : Options
  tableName : String
deriving DecidableEq, Repr

/-- Go error values as they are compared in `store.go`.  `notFound` is the
distinguished `gocql.ErrNotFound` value (message `"not found"`); `wrapped m`
is an error built by `fmt.Errorf("cassandrastore: %v", m)`; `lib m` is any
other library error value (gob, gocql `Exec`, ...). -/
inductive GoError where
  | notFound
  | wrapped (msg : String)
  | lib (msg : String)
deriving DecidableEq, Repr

/-- The message carried by an error value (Go's `err.Error()`). -/
def GoError.message : GoError → String
  | .notFound => "not found"
  | .wrapped m => "cassandrastore: " ++ m
  | .lib m => m

/-- Outcome of the CQL point lookup `SELECT values FROM <table> WHERE id = ?`
(the storage oracle): a row, the distinguished not-found error, or some other
query error with message `m`. -/
inductive QueryResult where
  | found (bytes : List Nat)
  | notFound
  | failure (msg : String)
deriving DecidableEq, Repr

/-- Externally visible side effects of `Save`, in order of occurrence. -/
inductive Effect where
  | setCookie (name : String) (value : String) (opts : Options)
  | dbWrite (table : String) (id : String) (bytes : List Nat) (ttl : Int)
deriving DecidableEq, Repr

/-! ### Operations (`store.go`) -/

/-- `NewCassandraStore`: default options path `"/"`, max-age `2592000`;
empty table name defaults to `"sessions"`. -/
def NewCassandraStore (tableName : String) : CassandraStore :=
  { options := { path := "/", maxAge := 2592000 },
    tableName := if tableName = "" then "sessions" else tableName }

/-- The session as built by the first lines of `New`: fresh id and payload,
`IsNew = true`, and options copied by value from the store's defaults
(`opts := *c.Options; s.Options = &opts`). -/
def freshSession (c : CassandraStore) (name : String) : Session :=
  { id := "", name := name, values := [], options := c.options, isNew := true }

/-- `load`: obtain a connection (`conn = some m` means
`ClusterConfig.CreateSession` failed with message `m`), run the point lookup,
and gob-decode the row into the session's payload.  Connection and query
errors are wrapped with the `cassandrastore:` prefix — note that the
distinguished not-found error is wrapped too, so `load` never returns
`GoError.notFound` itself; the gob decode error is returned unwrapped. -/
def load (conn : Option String) (query : String → QueryResult) (s : Session) :
    Option GoError × Session :=
  match conn with
  | some m => (some (GoError.wrapped m), s)
  | none =>
    match query s.id with
    | QueryResult.failure m => (some (GoError.wrapped m), s)
    | QueryResult.notFound => (some (GoError.wrapped "not found"), s)
    | QueryResult.found bytes =>
      match decodePayload bytes with
      | some vals => (none, { s with values := vals })
      | none => (some (GoError.lib "gob: decode failure"), s)

/-- The tail of `New` after a successful cookie decode: run the load, and set
`IsNew = false` exactly when the load error is non-nil and is not exactly
`gocql.ErrNotFound`
(`if errLoad != nil && errLoad != gocql.ErrNotFound { s.IsNew = false }`). -/
def applyLoadResult (res : Option GoError × Session) : Session :=
  match res with
  | (none, s) => s
  | (some e, s) => if e ≠ GoError.notFound then { s with isNew := false } else s

/-- `New`, generic in the load routine it calls: read the request cookie
(`cookie = none` when `r.Cookie` fails), decode its value with the
securecookie codecs (`decode` oracle, `none` on decode failure), and on
success load the stored payload.  Always returns a nil error. -/
def NewWithLoad (c : CassandraStore) (name : String) (cookie : Option String)
    (decode : String → Option String)
    (loadFn : Session → Option GoError × Session) : Session × Option GoError :=
  let s := freshSession c name
  match cookie with
  | none => (s, none)
  | some v =>
    match decode v with
    | none => (s, none)
    | some id => (applyLoadResult (loadFn { s with id := id }), none)

/-- `New` with the concrete `load` of `store.go`. -/
def New (c : CassandraStore) (name : String) (cookie : Option String)
    (decode : String → Option String) (conn : Option String)
    (query : String → QueryResult) : Session × Option GoError :=
  NewWithLoad c name cookie decode (load conn query)

/-- The lower-case `save` method: obtain a connection, gob-encode the payload
(total for our payload model), and run
`INSERT INTO <table> (id, values) VALUES (?, ?) USING TTL ?` with the
session's max-age as TTL.  `execErr = some m` means the `Exec` failed with
message `m`; that error is returned unwrapped by `save` itself, while a
connection error is wrapped with the `cassandrastore:` prefix. -/
def saveDb (c : CassandraStore) (s : Session) (conn : Option String)
    (execErr : Option String) : Option GoError × List Effect :=
  match conn with
  | some m => (some (GoError.wrapped m), [])
  | none =>
    let bytes := encodePayload s.values
    match execErr with
    | some m => (some (GoError.lib m),
        [Effect.dbWrite c.tableName s.id bytes s.options.maxAge])
    | none => (none, [Effect.dbWrite c.tableName s.id bytes s.options.maxAge])

/-- `Save`: with a negative max-age, set an expired cookie (empty value,
session options) and return nil without touching storage.  Otherwise
generate an identifier if the session has none (from the 32-byte entropy
oracle `randKey`), write the row, wrap any error from `save` with the
`cassandrastore:` prefix, encode the identifier with the securecookie codecs
(`encodeMulti` oracle), and finally set the cookie — with the STORE's
options `c.Options`, as in line 92 of `store.go`. -/
def Save (c : CassandraStore) (s : Session) (randKey : List Nat)
    (conn : Option String) (execErr : Option String)
    (encodeMulti : String → Except String String) :
    Option GoError × Session × List Effect :=
  if s.options.maxAge < 0 then
    (none, s, [Effect.setCookie s.name "" s.options])
  else
    let s' := if s.id = "" then { s with id := generateID randKey } else s
    match saveDb c s' conn execErr with
    | (some e, effs) => (some (GoError.wrapped e.message), s', effs)
    | (none, effs) =>
      match encodeMulti s'.id with
      | Except.error m => (some (GoError.wrapped m), s', effs)
      | Except.ok encoded =>
          (none, s', effs ++ [Effect.setCookie s'.name encoded c.options])

/-! ### Pointer model for option copying

The Go line `opts := *c.Options; s.Options = &opts` allocates a fresh
`Options` struct holding a copy of the store's defaults and points the new
session at it.  To state the aliasing consequences we model a heap of
`Options` cells: the store's defaults live at `storeAddr`, and each call of
`New` allocates the next fresh address with a copy of the store's cell. -/

/-- A heap of `Options` cells, the next fresh address, and the address of the
store's default options. -/
structure OptHeap where
  cells : Nat → Options
  next : Nat
  storeAddr : Nat

/-- Allocation performed by `New` for a session's options: a fresh cell
initialized with a copy of the store's defaults. -/
def allocCopy (h : OptHeap) : Nat × OptHeap :=
  (h.next,
    { cells := fun a => if a = h.next then h.cells h.storeAddr else h.cells a,
      next := h.next + 1,
      storeAddr := h.storeAddr })

/-- Mutating one session's options through its pointer. -/
def writeCell (h : OptHeap) (a : Nat) (o : Options) : OptHeap :=
  { h with cells := fun b => if b = a then o else h.cells b }

/-! ### Trace predicates -/

/-- Whether an effect is a set-cookie on the response. -/
def isSetCookie : Effect → Bool
  | Effect.setCookie _ _ _ => true
  | Effect.dbWrite _ _ _ _ => false

/-- Whether an effect, if it is a storage write, uses identifier `idv`. -/
def dbWriteUses (idv : String) : Effect → Bool
  | Effect.dbWrite _ i _ _ => i = idv
  | Effect.setCookie _ _ _ => true

/-! ### Concrete fixtures for witnesses and counterexamples -/

/-- Decode oracle accepting exactly the cookie value `"cv"` as id `"abc"`. -/
def decodeCv : String → Option String :=
  fun v => if v = "cv" then some "abc" else none

/-- Storage oracle with one row: id `"abc"` holds `{"user": "alice"}`. -/
def queryAlice : String → QueryResult :=
  fun i => if i = "abc" then QueryResult.found (encodePayload [("user", "alice")])
           else QueryResult.notFound

/-- Securecookie encode oracle that always succeeds. -/
def encodeOk : String → Except String String :=
  fun i => Except.ok ("enc-" ++ i)

/-- A session whose own options differ from the store's defaults. -/
def sessOwnOpts : Session :=
  { id := "abc", name := "sess", values := [("k", "v")],
    options := { path := "/app", maxAge := 100 }, isNew := false }

/-- A one-cell heap: the store's default options live at address `0`. -/
def heapW : OptHeap :=
  { cells := fun a => if a = 0 then { path := "/", maxAge := 2592000 }
      else { path := "", maxAge := 0 },
    next := 1, storeAddr := 0 }

/-- Options a caller might mutate a session's options to. -/
def optsW : Options := { path := "/other", maxAge := 60 }

/-! ### Claim theorems -/

/-- C1: the claim says a successfully loaded existing session is returned
with `isNew = false`; the code leaves `IsNew = true` when `load` returns a
nil error, because `IsNew` is only assigned when the load error is non-nil.
At a request whose cookie decodes to id `"abc"` with a stored record whose
payload is `{"user": "alice"}`, the load succeeds and recovers the payload,
yet the returned session still has `isNew = true`. -/
theorem new_successful_load_leaves_isNew_true :
    (New (NewCassandraStore "") "sess" (some "cv") decodeCv none queryAlice).1.isNew = true ∧
    (New (NewCassandraStore "") "sess" (some "cv") decodeCv none queryAlice).1.values =
      [("user", "alice")] ∧
    (New (NewCassandraStore "") "sess" (some "cv") decodeCv none queryAlice).2 = none :=
  ⟨rfl, rfl, rfl⟩

/-- C2: when the cookie decodes successfully and the load routine fails with
error `e`, the session keeps `isNew = true` exactly when `e` is the
distinguished `gocql.ErrNotFound` value, and is marked `isNew = false` for
every other load error; the returned error is nil either way. -/
theorem new_isNew_set_false_unless_notFound (c : CassandraStore)
    (name v id : String) (decode : String → Option String) (e : GoError)
    (hdec : decode v = some id) :
    (e = GoError.notFound →
      (NewWithLoad c name (some v) decode (fun s => (some e, s))).1.isNew = true) ∧
    (e ≠ GoError.notFound →
      (NewWithLoad c name (some v) decode (fun s => (some e, s))).1.isNew = false) ∧
    (NewWithLoad c name (some v) decode (fun s => (some e, s))).2 = none := by
  by_cases he : e = GoError.notFound <;>
    simp [NewWithLoad, hdec, applyLoadResult, freshSession, he]

/-- Witness for C2 at concrete inputs, on both sides of the dichotomy. -/
theorem new_isNew_set_false_unless_notFound_witness :
    (decodeCv "cv" = some "abc" ∧
      ((GoError.notFound = GoError.notFound →
        (NewWithLoad (NewCassandraStore "") "sess" (some "cv") decodeCv
          (fun s => (some GoError.notFound, s))).1.isNew = true) ∧
       (GoError.notFound ≠ GoError.notFound →
        (NewWithLoad (NewCassandraStore "") "sess" (some "cv") decodeCv
          (fun s => (some GoError.notFound, s))).1.isNew = false) ∧
       (NewWithLoad (NewCassandraStore "") "sess" (some "cv") decodeCv
          (fun s => (some GoError.notFound, s))).2 = none)) ∧
    (decodeCv "cv" = some "abc" ∧
      ((GoError.wrapped "boom" = GoError.notFound →
        (NewWithLoad (NewCassandraStore "") "sess" (some "cv") decodeCv
          (fun s => (some (GoError.wrapped "boom"), s))).1.isNew = true) ∧
       (GoError.wrapped "boom" ≠ GoError.notFound →
        (NewWithLoad (NewCassandraStore "") "sess" (some "cv") decodeCv
          (fun s => (some (GoError.wrapped "boom"), s))).1.isNew = false) ∧
       (NewWithLoad (NewCassandraStore "") "sess" (some "cv") decodeCv
          (fun s => (some (GoError.wrapped "boom"), s))).2 = none)) :=
  ⟨⟨by decide,
    new_isNew_set_false_unless_notFound (NewCassandraStore "") "sess" "cv" "abc"
      decodeCv GoError.notFound (by decide)⟩,
   ⟨by decide,
    new_isNew_set_false_unless_notFound (NewCassandraStore "") "sess" "cv" "abc"
      decodeCv (GoError.wrapped "boom") (by decide)⟩⟩

theorem load_preserves_name (conn : Option String)
    (query : String → QueryResult) (s : Session) :
    (load conn query s).2.name = s.name := by
  unfold load
  rcases conn with _ | m
  · cases hq : query s.id with
    | found bytes =>
      simp only [hq]
      cases hdp : decodePayload bytes <;> simp [hdp]
    | notFound => simp [hq]
    | failure m => simp [hq]
  · rfl

theorem applyLoadResult_preserves_name (res : Option GoError × Session) :
    (applyLoadResult res).name = res.2.name := by
  rcases res with ⟨err, s⟩
  rcases err with _ | e
  · rfl
  · unfold applyLoadResult
    by_cases he : e = GoError.notFound <;> simp [he]

/-- C10: `New` always returns a session (for the requested name) together
with a nil error, whatever the cookie, decode, connection and query oracles
do. -/
theorem new_always_nil_error (c : CassandraStore) (name : String)
    (cookie : Option String) (decode : String → Option String)
    (conn : Option String) (query : String → QueryResult) :
    (New c name cookie decode conn query).2 = none ∧
    (New c name cookie decode conn query).1.name = name := by
  unfold New NewWithLoad
  rcases cookie with _ | v
  · exact ⟨rfl, rfl⟩
  · cases hd : decode v with
    | none => simp [hd, freshSession]
    | some id =>
      simp only [hd]
      constructor
      · trivial
      · rw [applyLoadResult_preserves_name, load_preserves_name]
        rfl

/-- C8: whenever the cookie is absent or its value fails authenticated
decoding, `New` returns exactly the fresh session — `isNew = true`, empty
payload, empty id — and a nil error; the decode failure is not propagated. -/
theorem new_decode_failure_fresh_session (c : CassandraStore) (name : String)
    (cookie : Option String) (decode : String → Option String)
    (conn : Option String) (query : String → QueryResult)
    (h : cookie = none ∨ ∃ v, cookie = some v ∧ decode v = none) :
    New c name cookie decode conn query = (freshSession c name, none) ∧
    (freshSession c name).isNew = true ∧
    (freshSession c name).values = [] ∧
    (freshSession c name).id = "" := by
  refine ⟨?_, rfl, rfl, rfl⟩
  rcases h with hc | ⟨v, hc, hd⟩
  · subst hc; rfl
  · subst hc; simp [New, NewWithLoad, hd]

/-- Witness for C8: a request with no cookie at all. -/
theorem new_decode_failure_fresh_session_witness :
    ((none : Option String) = none ∨
      ∃ v, (none : Option String) = some v ∧ decodeCv v = none) ∧
    (New (NewCassandraStore "") "sess" none decodeCv none queryAlice =
      (freshSession (NewCassandraStore "") "sess", none) ∧
     (freshSession (NewCassandraStore "") "sess").isNew = true ∧
     (freshSession (NewCassandraStore "") "sess").values = [] ∧
     (freshSession (NewCassandraStore "") "sess").id = "") :=
  ⟨Or.inl rfl,
   new_decode_failure_fresh_session (NewCassandraStore "") "sess" none decodeCv
     none queryAlice (Or.inl rfl)⟩

/-- C3: the claim says `Save` sets the response cookie using the session's
own options; the code (line 92 of `store.go`) passes `c.Options`, the
store's defaults, to `sessions.NewCookie`.  At a session whose own options
are `path "/app", maxAge 100` under a store with defaults
`path "/", maxAge 2592000`, a successful save writes the row with the
session's TTL 100 but sets the cookie with the store's options, which differ
from the session's. -/
theorem save_sets_cookie_with_store_options :
    (Save (NewCassandraStore "") sessOwnOpts [] none none encodeOk).2.2 =
      [Effect.dbWrite "sessions" "abc" (encodePayload [("k", "v")]) 100,
       Effect.setCookie "sess" "enc-abc" { path := "/", maxAge := 2592000 }] ∧
    ({ path := "/", maxAge := 2592000 } : Options) ≠ sessOwnOpts.options ∧
    (Save (NewCassandraStore "") sessOwnOpts [] none none encodeOk).1 = none :=
  ⟨rfl, by decide, rfl⟩

/-- C4: whenever the session's max-age is negative at save time, `Save` sets
a cookie with an empty value under the session's own (negative max-age)
options, performs no storage operation at all, and returns a nil error. -/
theorem save_negative_maxAge_expires_cookie (c : CassandraStore) (s : Session)
    (randKey : List Nat) (conn execErr : Option String)
    (encodeMulti : String → Except String String)
    (h : s.options.maxAge < 0) :
    Save c s randKey conn execErr encodeMulti =
      (none, s, [Effect.setCookie s.name "" s.options]) := by
  unfold Save
  rw [if_pos h]

/-- Witness for C4: saving a session whose max-age is `-1`. -/
theorem save_negative_maxAge_expires_cookie_witness :
    ({ path := "/", maxAge := -1 } : Options).maxAge < 0 ∧
    Save (NewCassandraStore "")
        { id := "abc", name := "sess", values := [],
          options := { path := "/", maxAge := -1 }, isNew := false }
        [] none none encodeOk =
      (none,
       { id := "abc", name := "sess", values := [],
         options := { path := "/", maxAge := -1 }, isNew := false },
       [Effect.setCookie "sess" "" { path := "/", maxAge := -1 }]) :=
  ⟨by decide,
   save_negative_maxAge_expires_cookie (NewCassandraStore "")
     { id := "abc", name := "sess", values := [],
       options := { path := "/", maxAge := -1 }, isNew := false }
     [] none none encodeOk (by decide)⟩

/-- C5: saving a session with non-negative max-age and an empty identifier,
with the entropy source supplying 32 bytes, first sets the identifier to the
trimmed base-32 encoding of those bytes — a non-empty string — and every
storage write performed uses exactly that identifier. -/
theorem save_generates_nonempty_id (c : CassandraStore) (s : Session)
    (randKey : List Nat) (conn execErr : Option String)
    (encodeMulti : String → Except String String)
    (hage : 0 ≤ s.options.maxAge) (hid : s.id = "")
    (hkey : randKey.length = 32) :
    (Save c s randKey conn execErr encodeMulti).2.1.id = generateID randKey ∧
    generateID randKey ≠ "" ∧
    ∀ eff ∈ (Save c s randKey conn execErr encodeMulti).2.2,
      dbWriteUses (generateID randKey) eff = true := by
  have hne : generateID randKey ≠ "" := by
    refine generateID_ne_empty randKey ?_
    intro hnil
    rw [hnil] at hkey
    simp at hkey
  unfold Save
  rw [if_neg (Int.not_lt.mpr hage), if_pos hid]
  refine ?_
  unfold saveDb
  rcases conn with _ | m
  · rcases execErr with _ | m2
    · cases hEnc : encodeMulti { s with id := generateID randKey }.id with
      | error m3 => simp [hEnc, hne, dbWriteUses]
      | ok enc => simp [hEnc, hne, dbWriteUses]
    · simp [hne, dbWriteUses]
  · simp [hne, dbWriteUses]

/-- Witness for C5: a fresh session saved with max-age 3600 and an all-zero
32-byte key; the generated identifier is 52 characters of `A`. -/
theorem save_generates_nonempty_id_witness :
    (0 : Int) ≤ ({ path := "/", maxAge := 3600 } : Options).maxAge ∧
    ("" : String) = "" ∧
    (List.replicate 32 0).length = 32 ∧
    ((Save (NewCassandraStore "")
        { id := "", name := "sess", values := [],
          options := { path := "/", maxAge := 3600 }, isNew := true }
        (List.replicate 32 0) none none encodeOk).2.1.id =
      generateID (List.replicate 32 0) ∧
    generateID (List.replicate 32 0) ≠ "" ∧
    ∀ eff ∈ (Save (NewCassandraStore "")
        { id := "", name := "sess", values := [],
          options := { path := "/", maxAge := 3600 }, isNew := true }
        (List.replicate 32 0) none none encodeOk).2.2,
      dbWriteUses (generateID (List.replicate 32 0)) eff = true) :=
  ⟨by decide, rfl, by decide,
   save_generates_nonempty_id (NewCassandraStore "")
     { id := "", name := "sess", values := [],
       options := { path := "/", maxAge := 3600 }, isNew := true }
     (List.replicate 32 0) none none encodeOk (by decide) rfl (by decide)⟩

/-- C6: for a save with non-negative max-age, if obtaining the storage
connection, executing the write, or encoding the identifier fails, `Save`
returns a non-nil error whose message carries the `cassandrastore:` prefix,
and no cookie is set on the response. -/
theorem save_error_sets_no_cookie (c : CassandraStore) (s : Session)
    (randKey : List Nat) (conn execErr : Option String)
    (encodeMulti : String → Except String String)
    (hage : 0 ≤ s.options.maxAge)
    (hfail : conn ≠ none ∨ execErr ≠ none ∨
      ∃ m, encodeMulti (if s.id = "" then generateID randKey else s.id) =
        Except.error m) :
    ∃ em, (Save c s randKey conn execErr encodeMulti).1 =
        some (GoError.wrapped em) ∧
      (GoError.wrapped em).message = "cassandrastore: " ++ em ∧
      ∀ eff ∈ (Save c s randKey conn execErr encodeMulti).2.2,
        isSetCookie eff = false := by
  unfold Save
  rw [if_neg (Int.not_lt.mpr hage)]
  unfold saveDb
  rcases conn with _ | m
  · rcases execErr with _ | m2
    · rcases hfail with hc | he | ⟨m3, hEnc⟩
      · exact absurd rfl hc
      · exact absurd rfl he
      · by_cases hid : s.id = ""
        · rw [if_pos hid] at hEnc ⊢
          have : encodeMulti { s with id := generateID randKey }.id =
              Except.error m3 := hEnc
          simp [this, GoError.message, isSetCookie]
        · rw [if_neg hid] at hEnc ⊢
          have : encodeMulti ({ s with id := s.id } : Session).id =
              Except.error m3 := by
            simpa using hEnc
          simp at this
          simp [this, GoError.message, isSetCookie]
    · exact ⟨m2, by simp [GoError.message, isSetCookie]⟩
  · exact ⟨"cassandrastore: " ++ m, by simp [GoError.message, isSetCookie]⟩

/-- Witness for C6: a save whose storage connection cannot be obtained. -/
theorem save_error_sets_no_cookie_witness :
    (0 : Int) ≤ sessOwnOpts.options.maxAge ∧
    ((some "no hosts" : Option String) ≠ none ∨
      (none : Option String) ≠ none ∨
      ∃ m, encodeOk (if sessOwnOpts.id = "" then generateID [] else sessOwnOpts.id) =
        Except.error m) ∧
    ∃ em, (Save (NewCassandraStore "") sessOwnOpts [] (some "no hosts") none encodeOk).1 =
        some (GoError.wrapped em) ∧
      (GoError.wrapped em).message = "cassandrastore: " ++ em ∧
      ∀ eff ∈ (Save (NewCassandraStore "") sessOwnOpts [] (some "no hosts") none encodeOk).2.2,
        isSetCookie eff = false :=
  ⟨by decide, Or.inl (by decide),
   save_error_sets_no_cookie (NewCassandraStore "") sessOwnOpts []
     (some "no hosts") none encodeOk (by decide) (Or.inl (by decide))⟩

/-- C7: each call of `New` allocates a fresh options cell holding a copy of
the store's defaults: both sessions start with the defaults, and after one
session's options are mutated the store's defaults and the other session's
options are unchanged; the three cells are pairwise distinct. -/
theorem new_copies_options (h : OptHeap) (o : Options)
    (hwf : h.storeAddr < h.next) :
    ((allocCopy h).2.cells (allocCopy h).1 = h.cells h.storeAddr) ∧
    ((allocCopy (allocCopy h).2).2.cells (allocCopy (allocCopy h).2).1 =
      h.cells h.storeAddr) ∧
    ((writeCell (allocCopy (allocCopy h).2).2 (allocCopy h).1 o).cells
        h.storeAddr = h.cells h.storeAddr) ∧
    ((writeCell (allocCopy (allocCopy h).2).2 (allocCopy h).1 o).cells
        (allocCopy (allocCopy h).2).1 = h.cells h.storeAddr) ∧
    (allocCopy h).1 ≠ h.storeAddr ∧
    (allocCopy (allocCopy h).2).1 ≠ (allocCopy h).1 := by
  have h1 : h.storeAddr ≠ h.next := by omega
  have h2 : h.storeAddr ≠ h.next + 1 := by omega
  have h3 : h.next + 1 ≠ h.next := by omega
  refine ⟨?_, ?_, ?_, ?_, ?_, ?_⟩
  all_goals simp [allocCopy, writeCell, h1, h2, h3]
  all_goals omega

/-- Witness for C7: a one-cell heap holding the default options, mutated to
a different path and max-age. -/
theorem new_copies_options_witness :
    heapW.storeAddr < heapW.next ∧
    (((allocCopy heapW).2.cells (allocCopy heapW).1 =
        heapW.cells heapW.storeAddr) ∧
     ((allocCopy (allocCopy heapW).2).2.cells (allocCopy (allocCopy heapW).2).1 =
        heapW.cells heapW.storeAddr) ∧
     ((writeCell (allocCopy (allocCopy heapW).2).2 (allocCopy heapW).1 optsW).cells
        heapW.storeAddr = heapW.cells heapW.storeAddr) ∧
     ((writeCell (allocCopy (allocCopy heapW).2).2 (allocCopy heapW).1 optsW).cells
        (allocCopy (allocCopy heapW).2).1 = heapW.cells heapW.storeAddr) ∧
     (allocCopy heapW).1 ≠ heapW.storeAddr ∧
     (allocCopy (allocCopy heapW).2).1 ≠ (allocCopy heapW).1) :=
  ⟨by decide, new_copies_options heapW optsW (by decide)⟩

/-- C9: the session codec satisfies the round-trip law — decoding the
encoding of any payload mapping yields that mapping back — and decoding any
byte sequence either fails outright (`none`) or yields a whole payload,
never a partial one. -/
theorem codec_round_trip :
    (∀ m : Payload, decodePayload (encodePayload m) = some m) ∧
    (∀ bs : List Nat, decodePayload bs = none ∨ ∃ m, decodePayload bs = some m) := by
  refine ⟨decodePayload_encodePayload, fun bs => ?_⟩
  cases hb : decodePayload bs
  · exact Or.inl rfl
  · exact Or.inr ⟨_, rfl⟩

end Cassandrastore
